import Mathlib

/-!
Verification of the pacman-emu memory bus, palette derivation, video compositor
and register file, shallowly embedded from src/src/memory.c, src/src/video.c,
src/include/cpu.h and src/include/memory.h.

Machine integers are modelled as Nat, masked at the points where the C types
truncate (uint8_t parameters and loads mask with % 256, uint16_t with % 65536).
The storage regions (uint8_t arrays) and the palette (uint32_t array) are
modelled as total functions Nat → Nat; loads mask bytes with % 256 so that an
arbitrary state still reads as bytes, exactly as the C arrays do.
-/

namespace Pacman

/-- Pointwise update of a storage region, the effect of `buf[i] = v` in C. -/
def updFn (f : Nat → Nat) (i v : Nat) : Nat → Nat :=
  fun j => if j = i then v else f j

/- Memory map constants from src/include/memory.h. -/
def ROM_SIZE : Nat := 0x4000
def RAM_SIZE : Nat := 0x1000
def VRAM_SIZE : Nat := 0x0400
def CRAM_SIZE : Nat := 0x0400
def ROM_END : Nat := 0x3FFF
def VRAM_START : Nat := 0x4000
def VRAM_END : Nat := 0x43FF
def CRAM_START : Nat := 0x4400
def CRAM_END : Nat := 0x47FF
def WRAM_START : Nat := 0x4800
def WRAM_END : Nat := 0x4FFF
def IO_IN0 : Nat := 0x5000
def IO_IN1 : Nat := 0x5040
def IO_DSW1 : Nat := 0x5080
def IO_DSW2 : Nat := 0x50C0
def SPRITE_COORD : Nat := 0x5060
def WATCHDOG : Nat := 0x50C0
def SOUND_REG_START : Nat := 0x5040
def SOUND_REG_END : Nat := 0x505F
def INTERRUPT_EN : Nat := 0x5000
def SOUND_EN : Nat := 0x5001
def FLIP_SCREEN : Nat := 0x5003
def PLAYER1_LAMP : Nat := 0x5004
def PLAYER2_LAMP : Nat := 0x5005
def COIN_LOCKOUT : Nat := 0x5006
def COIN_COUNTER : Nat := 0x5007

/- Video constants from src/include/video.h. -/
def SCREEN_WIDTH : Nat := 224
def SCREEN_HEIGHT : Nat := 288
def TILE_SIZE : Nat := 8
def TILE_COLUMNS : Nat := 28
def TILE_ROWS : Nat := 36
def MAX_SPRITES : Nat := 8
def SPRITE_WIDTH : Nat := 16
def SPRITE_HEIGHT : Nat := 16

/-- The state owned by src/src/memory.c: the four storage regions, the
graphics ROMs, the resolved palette, the 256-entry I/O register bank and the
named hardware latches. -/
structure MemState where
  rom : Nat → Nat
  ram : Nat → Nat
  vram : Nat → Nat
  cram : Nat → Nat
  charset : Nat → Nat
  sprites : Nat → Nat
  palette : Nat → Nat
  io_ports : Nat → Nat
  interrupt_enable : Nat
  sound_enable : Nat
  flip_screen : Nat
  lamp1 : Nat
  lamp2 : Nat
  coin_lockout : Nat
  coin_counter : Nat
  watchdog_counter : Nat

/-- io_read_byte from src/src/memory.c: every case of the switch, the four
named input ports included, returns io_ports[port]. -/
def io_read_byte (port : Nat) (s : MemState) : Nat :=
  s.io_ports (port % 256) % 256

/-- io_write_byte from src/src/memory.c: the named registers latch the low bit
in their side latch and store the raw byte in the bank; the watchdog clears its
counter; everything else (sound and sprite-coordinate sub-blocks included)
just stores the byte in the bank. -/
def io_write_byte (port value : Nat) (s : MemState) : MemState :=
  let port := port % 256
  let value := value % 256
  if port = INTERRUPT_EN % 256 then
    { s with interrupt_enable := value &&& 0x01, io_ports := updFn s.io_ports port value }
  else if port = SOUND_EN % 256 then
    { s with sound_enable := value &&& 0x01, io_ports := updFn s.io_ports port value }
  else if port = FLIP_SCREEN % 256 then
    { s with flip_screen := value &&& 0x01, io_ports := updFn s.io_ports port value }
  else if port = PLAYER1_LAMP % 256 then
    { s with lamp1 := value &&& 0x01, io_ports := updFn s.io_ports port value }
  else if port = PLAYER2_LAMP % 256 then
    { s with lamp2 := value &&& 0x01, io_ports := updFn s.io_ports port value }
  else if port = COIN_LOCKOUT % 256 then
    { s with coin_lockout := value &&& 0x01, io_ports := updFn s.io_ports port value }
  else if port = COIN_COUNTER % 256 then
    { s with coin_counter := value &&& 0x01, io_ports := updFn s.io_ports port value }
  else if port = WATCHDOG % 256 then
    { s with watchdog_counter := 0, io_ports := updFn s.io_ports port value }
  else
    { s with io_ports := updFn s.io_ports port value }

/-- memory_read_byte from src/src/memory.c: the fixed partition of the 16-bit
address space; unmapped addresses fall through to 0xFF. -/
def memory_read_byte (address : Nat) (s : MemState) : Nat :=
  let address := address % 65536
  if address ≤ ROM_END then
    s.rom address % 256
  else if VRAM_START ≤ address ∧ address ≤ VRAM_END then
    s.vram (address - VRAM_START) % 256
  else if CRAM_START ≤ address ∧ address ≤ CRAM_END then
    s.cram (address - CRAM_START) % 256
  else if WRAM_START ≤ address ∧ address ≤ WRAM_END then
    s.ram (address - WRAM_START) % 256
  else if address = IO_IN0 then
    io_read_byte (address % 256) s
  else if address = IO_IN1 then
    io_read_byte (address % 256) s
  else if address = IO_DSW1 then
    io_read_byte (address % 256) s
  else if address = IO_DSW2 then
    io_read_byte (address % 256) s
  else if 0x5000 ≤ address ∧ address ≤ 0x50FF then
    io_read_byte (address % 256) s
  else
    0xFF

/-- memory_write_byte from src/src/memory.c: ROM writes are silently ignored,
the three RAM regions store the byte, the named I/O offsets latch their side
effect, and the rest of the I/O window goes through io_write_byte. -/
def memory_write_byte (address value : Nat) (s : MemState) : MemState :=
  let address := address % 65536
  let value := value % 256
  if address ≤ ROM_END then
    s
  else if VRAM_START ≤ address ∧ address ≤ VRAM_END then
    { s with vram := updFn s.vram (address - VRAM_START) value }
  else if CRAM_START ≤ address ∧ address ≤ CRAM_END then
    { s with cram := updFn s.cram (address - CRAM_START) value }
  else if WRAM_START ≤ address ∧ address ≤ WRAM_END then
    { s with ram := updFn s.ram (address - WRAM_START) value }
  else if address = INTERRUPT_EN then
    { s with interrupt_enable := value &&& 0x01 }
  else if address = SOUND_EN then
    { s with sound_enable := value &&& 0x01 }
  else if address = FLIP_SCREEN then
    { s with flip_screen := value &&& 0x01 }
  else if address = PLAYER1_LAMP then
    { s with lamp1 := value &&& 0x01 }
  else if address = PLAYER2_LAMP then
    { s with lamp2 := value &&& 0x01 }
  else if address = COIN_LOCKOUT then
    { s with coin_lockout := value &&& 0x01 }
  else if address = COIN_COUNTER then
    { s with coin_counter := value &&& 0x01 }
  else if SOUND_REG_START ≤ address ∧ address ≤ SOUND_REG_END then
    io_write_byte (address % 256) value s
  else if SPRITE_COORD ≤ address ∧ address ≤ SPRITE_COORD + 0x0F then
    io_write_byte (address % 256) value s
  else if address = WATCHDOG then
    { s with watchdog_counter := 0 }
  else if 0x5000 ≤ address ∧ address ≤ 0x50FF then
    io_write_byte (address % 256) value s
  else
    s

/-- memory_read_word from src/src/memory.c: little-endian pair of byte reads. -/
def memory_read_word (address : Nat) (s : MemState) : Nat :=
  let low := memory_read_byte address s
  let high := memory_read_byte (address + 1) s
  low ||| (high <<< 8)

/-- memory_write_word from src/src/memory.c: little-endian pair of byte
writes (the address increment wraps at 16 bits inside memory_write_byte). -/
def memory_write_word (address value : Nat) (s : MemState) : MemState :=
  let value := value % 65536
  let s := memory_write_byte address (value &&& 0xFF) s
  memory_write_byte (address + 1) (value >>> 8) s

/-- memory_reset from src/src/memory.c: clears the RAM regions and the I/O
bank, then sets interrupt_enable = 1 and sound_enable = 1 ("for testing"),
skips the sprite-descriptor defaults because VRAM_SIZE < 0x1000, and sets the
default sprite positions in I/O ports 0x60-0x6F. -/
def memory_reset (s : MemState) : MemState :=
  let s := { s with
    ram := fun _ => 0, vram := fun _ => 0, cram := fun _ => 0,
    io_ports := fun _ => 0,
    interrupt_enable := 1, sound_enable := 1, flip_screen := 0 }
  let s := if 0x1000 ≤ VRAM_SIZE then
      let v := updFn (updFn s.vram 0xFF0 (0 <<< 2)) 0xFF1 6
      let v := updFn (updFn v 0xFF2 (1 <<< 2)) 0xFF3 4
      let v := updFn (updFn v 0xFF4 (2 <<< 2)) 0xFF5 1
      let v := updFn (updFn v 0xFF6 (3 <<< 2)) 0xFF7 2
      { s with vram := v }
    else s
  let p := updFn (updFn (updFn (updFn s.io_ports 0x60 100) 0x61 100) 0x62 150) 0x63 100
  let p := updFn (updFn (updFn (updFn p 0x64 100) 0x65 150) 0x66 150) 0x67 150
  let p := updFn (updFn (updFn (updFn p 0x68 80) 0x69 80) 0x6A 170) 0x6B 80
  let p := updFn (updFn (updFn (updFn p 0x6C 80) 0x6D 170) 0x6E 170) 0x6F 170
  { s with io_ports := p }

/-- memory_get_interrupt_enable from src/src/memory.c. -/
def memory_get_interrupt_enable (s : MemState) : Nat :=
  s.interrupt_enable

/-- The color computation of video_update_palette in src/src/video.c: the
resistor-network weighting 0x21/0x47/0x97 per channel, blue from two bits
only, packed as 0xAARRGGBB with alpha 0xFF. -/
def palette_color (value : Nat) : Nat :=
  let value := value % 256
  let r := ((value >>> 0) &&& 0x01) * 0x21 + ((value >>> 1) &&& 0x01) * 0x47 +
           ((value >>> 2) &&& 0x01) * 0x97
  let g := ((value >>> 3) &&& 0x01) * 0x21 + ((value >>> 4) &&& 0x01) * 0x47 +
           ((value >>> 5) &&& 0x01) * 0x97
  let b := ((value >>> 6) &&& 0x01) * 0x47 + ((value >>> 7) &&& 0x01) * 0x97
  0xFF000000 ||| (r <<< 16) ||| (g <<< 8) ||| b

/-- video_update_palette from src/src/video.c: recompute one palette entry
from its source byte. -/
def video_update_palette (index value : Nat) (s : MemState) : MemState :=
  { s with palette := updFn s.palette (index % 256) (palette_color (value % 256)) }

/-- The palette PROM conversion inside memory_init_mame_set in
src/src/memory.c (lines 471-477): three-bit red and green channels scaled by
36, the two-bit blue channel scaled by 85, packed with alpha 0xFF. -/
def palette_prom_color (c : Nat) : Nat :=
  let c := c % 256
  let r := (c &&& 0x07) * 36
  let g := ((c >>> 3) &&& 0x07) * 36
  let b := ((c >>> 6) &&& 0x03) * 85
  0xFF000000 ||| (r <<< 16) ||| (g <<< 8) ||| b

/-- The loop in memory_init_mame_set that converts the 32-entry palette PROM
into resolved colors. -/
def load_palette_prom (prom : Nat → Nat) (s : MemState) : MemState :=
  { s with palette := fun i => if i < 32 then palette_prom_color (prom i) else s.palette i }

/-- The pixel buffer of src/src/video.c, as a function from screen coordinates
to the stored 32-bit color.  Coordinates are Int because the compositor works
with signed positions and clips against the screen bounds. -/
def Buffer : Type := Int → Int → Nat

/-- The buffer right after the memset clear at the top of video_render. -/
def clearBuffer : Buffer := fun _ _ => 0

/-- One store `pixel_buffer[y * SCREEN_WIDTH + x] = color`, with the bounds
check that guards every such store in src/src/video.c. -/
structure PixelOp where
  x : Int
  y : Int
  color : Nat

def applyOp (buf : Buffer) (op : PixelOp) : Buffer :=
  if 0 ≤ op.x ∧ op.x < 224 ∧ 0 ≤ op.y ∧ op.y < 288 then
    fun px py => if px = op.x ∧ py = op.y then op.color else buf px py
  else
    buf

def applyOps (ops : List PixelOp) (buf : Buffer) : Buffer :=
  ops.foldl applyOp buf

/-- The row-major double loop over an n×n block shared by draw_character and
draw_sprite: for each (row, column) whose pixel test passes, store the given
color at (x + column, y + row). -/
def rectOps (n : Nat) (x y : Int) (color : Nat) (pixelSet : Nat → Nat → Bool) : List PixelOp :=
  (List.range n).flatMap fun ry =>
    (List.range n).filterMap fun rx =>
      if pixelSet rx ry then some ⟨x + rx, y + ry, color⟩ else none

/-- The pixel test of draw_sprite in src/src/video.c: mirror the in-sprite
coordinates per flip flag, split the 16×16 sprite into four 8×8 quadrants, and
test bit (0x80 >> column) of the addressed sprite byte. -/
def spritePixelSet (sprites : Nat → Nat) (sprite_index : Nat) (h_flip v_flip : Bool)
    (sx sy : Nat) : Bool :=
  let y_offset := if v_flip then 15 - sy else sy
  let tile_y := y_offset / 8
  let tile_row := y_offset % 8
  let x_offset := if h_flip then 15 - sx else sx
  let tile_x := x_offset / 8
  let tile_col := x_offset % 8
  let tile_index := tile_y * 2 + tile_x
  let tile_byte := sprites (sprite_index * 16 + tile_index * 8 + tile_row) % 256
  (tile_byte &&& (0x80 >>> tile_col)) ≠ 0

/-- draw_character from src/src/video.c: plot the set bits of the 8×8 glyph
in the palette entry selected by the low 4 bits of the attribute. -/
def draw_character (x y : Int) (character color : Nat)
    (charset palette : Nat → Nat) (buf : Buffer) : Buffer :=
  applyOps
    (rectOps 8 x y (palette (color &&& 0x0F))
      (fun cx cy => (charset (character * 8 + cy) % 256) &&& (0x80 >>> cx) ≠ 0))
    buf

/-- draw_sprite from src/src/video.c: plot the set pixels of the 16×16 sprite
in the palette entry selected by the low 4 bits of the color index. -/
def draw_sprite (x y : Int) (sprite_index color_index : Nat) (h_flip v_flip : Bool)
    (sprites palette : Nat → Nat) (buf : Buffer) : Buffer :=
  applyOps
    (rectOps 16 x y (palette (color_index &&& 0x0F))
      (spritePixelSet sprites sprite_index h_flip v_flip))
    buf

/-- The out parameters of get_sprite_data in src/src/video.c. -/
structure SpriteData where
  code : Nat
  color : Nat
  x : Int
  y : Int
  flip_x : Bool
  flip_y : Bool

/-- get_sprite_data from src/src/video.c.  The two guard branches return the
hardcoded debug values; the final branch decodes the two descriptor bytes and
keeps the fixed positions (the I/O-port reads are commented out in the
source).  Because VRAM_SIZE = 0x400 < 0xFF0 + 16, the second guard always
takes the hardcoded branch. -/
def get_sprite_data (sprite_num : Nat) (s : MemState) : SpriteData :=
  if MAX_SPRITES ≤ sprite_num then
    { code := sprite_num, color := 1, x := 100 + (sprite_num : Int) * 20, y := 100,
      flip_x := false, flip_y := false }
  else if VRAM_SIZE < 0xFF0 + MAX_SPRITES * 2 then
    { code := sprite_num, color := 1, x := 100 + (sprite_num : Int) * 20, y := 100,
      flip_x := false, flip_y := false }
  else
    let sprite_attr1 := s.vram (0xFF0 + sprite_num * 2) % 256
    let sprite_attr2 := s.vram (0xFF0 + sprite_num * 2 + 1) % 256
    { code := sprite_attr1 >>> 2, color := sprite_attr2 &&& 0x3F,
      x := 100 + (sprite_num : Int) * 20 - 16, y := 100,
      flip_x := sprite_attr1 &&& 0x02 ≠ 0, flip_y := sprite_attr1 &&& 0x01 ≠ 0 }

/-- Body of the inner tile loop of video_render in src/src/video.c: compute
the tile-store index with the 32-column stride, and draw the cell if the
index is inside VRAM (the screen-flip flag is hardcoded false in the source,
so screen_x = tx*8 and screen_y = ty*8). -/
def tile_cell_draw (s : MemState) (ty tx : Nat) (b : Buffer) : Buffer :=
  let tile_index := ty * 32 + tx
  if tile_index < VRAM_SIZE then
    draw_character ((tx : Int) * 8) ((ty : Int) * 8)
      (s.vram tile_index % 256) (s.cram tile_index % 256)
      s.charset s.palette b
  else b

/-- One iteration of the outer tile loop of video_render: the inner loop over
the 28 visible columns. -/
def tile_row_draw (s : MemState) (b : Buffer) (ty : Nat) : Buffer :=
  (List.range TILE_COLUMNS).foldl (fun b2 tx => tile_cell_draw s ty tx b2) b

/-- The background tilemap pass of video_render: the outer loop over the 36
visible rows. -/
def draw_background (s : MemState) (b : Buffer) : Buffer :=
  (List.range TILE_ROWS).foldl (tile_row_draw s) b

/-- One iteration of the sprite loop of video_render: fetch the slot data via
get_sprite_data and draw it if it passes the visibility clip. -/
def sprite_slot_draw (s : MemState) (b : Buffer) (i : Nat) : Buffer :=
  let sd := get_sprite_data i s
  if -16 ≤ sd.x ∧ sd.x < 224 ∧ -16 ≤ sd.y ∧ sd.y < 288 then
    draw_sprite sd.x sd.y sd.code sd.color sd.flip_x sd.flip_y
      s.sprites s.palette b
  else b

/-- The sprite pass of video_render: slots 0..7 in ascending index order. -/
def draw_sprites_pass (s : MemState) (b : Buffer) : Buffer :=
  (List.range MAX_SPRITES).foldl (sprite_slot_draw s) b

/-- video_render from src/src/video.c with the debug overlay disabled (the
claims fix debug_mode = false).  Clear the buffer, draw the 28×36 visible
tile cells at the 32-column stride, then draw the 8 sprites in ascending
slot order. -/
def video_render (s : MemState) : Buffer :=
  draw_sprites_pass s (draw_background s clearBuffer)

/-- The Z80_Registers record of src/include/cpu.h.  Each anonymous union of a
16-bit pair with its two 8-bit halves is modelled as the single 16-bit backing
value the union overlays (the low-addressed member — f, c, e, l — is the low
byte, the layout the rest of the code relies on); the 8-bit views become the
shift/mask accessors below. -/
structure Z80_Registers where
  af : Nat
  bc : Nat
  de : Nat
  hl : Nat
  ix : Nat
  iy : Nat
  sp : Nat
  pc : Nat
  af_prime : Nat
  bc_prime : Nat
  de_prime : Nat
  hl_prime : Nat
  iff1 : Bool
  iff2 : Bool
  i : Nat
  r : Nat
  im : Nat
  halted : Bool
  cycles : Nat

def Z80_Registers.get_af (rg : Z80_Registers) : Nat := rg.af % 65536
def Z80_Registers.get_a (rg : Z80_Registers) : Nat := rg.af / 256 % 256
def Z80_Registers.get_f (rg : Z80_Registers) : Nat := rg.af % 256
def Z80_Registers.set_af (rg : Z80_Registers) (v : Nat) : Z80_Registers :=
  { rg with af := v % 65536 }
def Z80_Registers.set_a (rg : Z80_Registers) (v : Nat) : Z80_Registers :=
  { rg with af := (v % 256) * 256 + rg.af % 256 }
def Z80_Registers.set_f (rg : Z80_Registers) (v : Nat) : Z80_Registers :=
  { rg with af := rg.af / 256 % 256 * 256 + v % 256 }

def Z80_Registers.get_bc (rg : Z80_Registers) : Nat := rg.bc % 65536
def Z80_Registers.get_b (rg : Z80_Registers) : Nat := rg.bc / 256 % 256
def Z80_Registers.get_c (rg : Z80_Registers) : Nat := rg.bc % 256
def Z80_Registers.set_bc (rg : Z80_Registers) (v : Nat) : Z80_Registers :=
  { rg with bc := v % 65536 }
def Z80_Registers.set_b (rg : Z80_Registers) (v : Nat) : Z80_Registers :=
  { rg with bc := (v % 256) * 256 + rg.bc % 256 }
def Z80_Registers.set_c (rg : Z80_Registers) (v : Nat) : Z80_Registers :=
  { rg with bc := rg.bc / 256 % 256 * 256 + v % 256 }

def Z80_Registers.get_de (rg : Z80_Registers) : Nat := rg.de % 65536
def Z80_Registers.get_d (rg : Z80_Registers) : Nat := rg.de / 256 % 256
def Z80_Registers.get_e (rg : Z80_Registers) : Nat := rg.de % 256
def Z80_Registers.set_de (rg : Z80_Registers) (v : Nat) : Z80_Registers :=
  { rg with de := v % 65536 }
def Z80_Registers.set_d (rg : Z80_Registers) (v : Nat) : Z80_Registers :=
  { rg with de := (v % 256) * 256 + rg.de % 256 }
def Z80_Registers.set_e (rg : Z80_Registers) (v : Nat) : Z80_Registers :=
  { rg with de := rg.de / 256 % 256 * 256 + v % 256 }

def Z80_Registers.get_hl (rg : Z80_Registers) : Nat := rg.hl % 65536
def Z80_Registers.get_h (rg : Z80_Registers) : Nat := rg.hl / 256 % 256
def Z80_Registers.get_l (rg : Z80_Registers) : Nat := rg.hl % 256
def Z80_Registers.set_hl (rg : Z80_Registers) (v : Nat) : Z80_Registers :=
  { rg with hl := v % 65536 }
def Z80_Registers.set_h (rg : Z80_Registers) (v : Nat) : Z80_Registers :=
  { rg with hl := (v % 256) * 256 + rg.hl % 256 }
def Z80_Registers.set_l (rg : Z80_Registers) (v : Nat) : Z80_Registers :=
  { rg with hl := rg.hl / 256 % 256 * 256 + v % 256 }

/-- An all-zero memory state, used as the concrete state of the witnesses. -/
def zeroState : MemState :=
  { rom := fun _ => 0, ram := fun _ => 0, vram := fun _ => 0, cram := fun _ => 0,
    charset := fun _ => 0, sprites := fun _ => 0, palette := fun _ => 0,
    io_ports := fun _ => 0, interrupt_enable := 0, sound_enable := 0, flip_screen := 0,
    lamp1 := 0, lamp2 := 0, coin_lockout := 0, coin_counter := 0, watchdog_counter := 0 }

/-- A concrete state whose glyphs are all-ones and whose palette is injective,
used by the tile-compositing witness. -/
def c7State : MemState :=
  { zeroState with charset := fun _ => 0xFF, palette := fun n => 100 + n }

lemma applyOp_eval (buf : Buffer) (op : PixelOp) (px py : Int) :
    applyOp buf op px py =
      if 0 ≤ op.x ∧ op.x < 224 ∧ 0 ≤ op.y ∧ op.y < 288 then
        (if px = op.x ∧ py = op.y then op.color else buf px py)
      else buf px py := by
  unfold applyOp
  split <;> rfl

lemma foldr_applyOp (l : List PixelOp) (buf : Buffer) (px py : Int) :
    List.foldr (fun op b => applyOp b op) buf l px py =
      if 0 ≤ px ∧ px < 224 ∧ 0 ≤ py ∧ py < 288 then
        (l.find? (fun op => op.x == px && op.y == py)).elim (buf px py) PixelOp.color
      else buf px py := by
  induction l with
  | nil =>
    simp only [List.foldr_nil, List.find?_nil, Option.elim_none]
    split <;> rfl
  | cons op l ih =>
    simp only [List.foldr_cons, List.find?_cons]
    by_cases hxy : op.x = px ∧ op.y = py
    · have hb : (op.x == px && op.y == py) = true := by
        simp [hxy.1, hxy.2]
      rw [hb]
      rw [applyOp_eval]
      by_cases hin : 0 ≤ px ∧ px < 224 ∧ 0 ≤ py ∧ py < 288
      · have hin2 : 0 ≤ op.x ∧ op.x < 224 ∧ 0 ≤ op.y ∧ op.y < 288 := by
          rw [hxy.1, hxy.2]; exact hin
        rw [if_pos hin2]
        simp only [hxy.1, hxy.2, and_self, if_pos, if_pos hin]
        rfl
      · have hin2 : ¬(0 ≤ op.x ∧ op.x < 224 ∧ 0 ≤ op.y ∧ op.y < 288) := by
          rw [hxy.1, hxy.2]; exact hin
        rw [if_neg hin2, ih, if_neg hin, if_neg hin]
    · have hb : (op.x == px && op.y == py) = false := by
        rcases not_and_or.mp hxy with hx | hy
        · simp [hx]
        · simp [hy]
      rw [hb]
      rw [applyOp_eval]
      by_cases hbo : 0 ≤ op.x ∧ op.x < 224 ∧ 0 ≤ op.y ∧ op.y < 288
      · rw [if_pos hbo]
        have hne : ¬(px = op.x ∧ py = op.y) := by
          intro hc; exact hxy ⟨hc.1.symm, hc.2.symm⟩
        simp only [hne, if_false]
        rw [ih]
      · rw [if_neg hbo, ih]

lemma applyOps_apply (ops : List PixelOp) (buf : Buffer) (px py : Int) :
    applyOps ops buf px py =
      if 0 ≤ px ∧ px < 224 ∧ 0 ≤ py ∧ py < 288 then
        (ops.reverse.find? (fun op => op.x == px && op.y == py)).elim (buf px py) PixelOp.color
      else buf px py := by
  have h1 : applyOps ops buf = List.foldl applyOp buf ops := rfl
  rw [h1, ← List.reverse_reverse ops, List.foldl_reverse]
  rw [List.reverse_reverse]
  exact foldr_applyOp ops.reverse buf px py

lemma mem_rectOps {n : Nat} {x y : Int} {c : Nat} {P : Nat → Nat → Bool} {op : PixelOp} :
    op ∈ rectOps n x y c P ↔
      ∃ rx ry : Nat, rx < n ∧ ry < n ∧ P rx ry = true ∧ op = ⟨x + rx, y + ry, c⟩ := by
  unfold rectOps
  simp only [List.mem_flatMap, List.mem_filterMap, List.mem_range,
    Option.ite_none_right_eq_some, Option.some.injEq]
  constructor
  · rintro ⟨ry, hry, rx, hrx, hP, hop⟩
    exact ⟨rx, ry, hrx, hry, hP, hop.symm⟩
  · rintro ⟨rx, ry, hrx, hry, hP, hop⟩
    exact ⟨ry, hry, rx, hrx, hP, hop.symm⟩

lemma applyOps_rectOps (n : Nat) (x y : Int) (c : Nat) (P : Nat → Nat → Bool)
    (buf : Buffer) (px py : Int) :
    applyOps (rectOps n x y c P) buf px py =
      if 0 ≤ px ∧ px < 224 ∧ 0 ≤ py ∧ py < 288 ∧
         x ≤ px ∧ px < x + n ∧ y ≤ py ∧ py < y + n ∧
         P (px - x).toNat (py - y).toNat = true then c
      else buf px py := by
  rw [applyOps_apply]
  by_cases hin : 0 ≤ px ∧ px < 224 ∧ 0 ≤ py ∧ py < 288
  · rw [if_pos hin]
    by_cases hrect : x ≤ px ∧ px < x + n ∧ y ≤ py ∧ py < y + n ∧
        P (px - x).toNat (py - y).toNat = true
    · rw [if_pos ⟨hin.1, hin.2.1, hin.2.2.1, hin.2.2.2, hrect⟩]
      have hmem : ∃ op ∈ (rectOps n x y c P).reverse,
          (op.x == px && op.y == py) = true := by
        refine ⟨⟨px, py, c⟩, ?_, by simp⟩
        rw [List.mem_reverse]
        rw [mem_rectOps]
        refine ⟨(px - x).toNat, (py - y).toNat, by omega, by omega, hrect.2.2.2.2, ?_⟩
        have h1 : x + ((px - x).toNat : Int) = px := by omega
        have h2 : y + ((py - y).toNat : Int) = py := by omega
        rw [h1, h2]
      obtain ⟨op, hop, hP⟩ := hmem
      have hsome : ((rectOps n x y c P).reverse.find?
          (fun op => op.x == px && op.y == py)).isSome = true :=
        List.find?_isSome.mpr ⟨op, hop, hP⟩
      obtain ⟨op2, hop2⟩ := Option.isSome_iff_exists.mp hsome
      rw [hop2]
      have hmem2 : op2 ∈ rectOps n x y c P :=
        List.mem_reverse.mp (List.mem_of_find?_eq_some hop2)
      obtain ⟨rx, ry, hrx3, hry3, hP3, heq⟩ := mem_rectOps.mp hmem2
      rw [heq]
      rfl
    · rw [if_neg (by intro hc; exact hrect ⟨hc.2.2.2.2.1, hc.2.2.2.2.2⟩)]
      have hnone : (rectOps n x y c P).reverse.find?
          (fun op => op.x == px && op.y == py) = none := by
        rw [List.find?_eq_none]
        intro op hop hP
        have hmem2 : op ∈ rectOps n x y c P := List.mem_reverse.mp hop
        obtain ⟨rx, ry, hrx, hry, hPr, heq⟩ := mem_rectOps.mp hmem2
        have hx : op.x = px ∧ op.y = py := by simpa using hP
        apply hrect
        rw [heq] at hx
        simp only at hx
        have hrxv : (px - x).toNat = rx := by omega
        have hryv : (py - y).toNat = ry := by omega
        refine ⟨by omega, by omega, by omega, by omega, ?_⟩
        rw [hrxv, hryv]; exact hPr
      rw [hnone]
      rfl
  · rw [if_neg hin, if_neg (by intro hc; exact hin ⟨hc.1, hc.2.1, hc.2.2.1, hc.2.2.2.1⟩)]

lemma draw_character_apply (x y : Int) (character color : Nat)
    (cs pal : Nat → Nat) (buf : Buffer) (px py : Int) :
    draw_character x y character color cs pal buf px py =
      if 0 ≤ px ∧ px < 224 ∧ 0 ≤ py ∧ py < 288 ∧
         x ≤ px ∧ px < x + 8 ∧ y ≤ py ∧ py < y + 8 ∧
         (cs (character * 8 + (py - y).toNat) % 256) &&& (0x80 >>> (px - x).toNat) ≠ 0 then
        pal (color &&& 0x0F)
      else buf px py := by
  unfold draw_character
  rw [applyOps_rectOps]
  simp only [decide_eq_true_eq, Nat.cast_ofNat]

lemma draw_sprite_apply (x y : Int) (sprite_index color_index : Nat)
    (h_flip v_flip : Bool) (spr pal : Nat → Nat) (buf : Buffer) (px py : Int) :
    draw_sprite x y sprite_index color_index h_flip v_flip spr pal buf px py =
      if 0 ≤ px ∧ px < 224 ∧ 0 ≤ py ∧ py < 288 ∧
         x ≤ px ∧ px < x + 16 ∧ y ≤ py ∧ py < y + 16 ∧
         spritePixelSet spr sprite_index h_flip v_flip (px - x).toNat (py - y).toNat = true then
        pal (color_index &&& 0x0F)
      else buf px py := by
  unfold draw_sprite
  rw [applyOps_rectOps]
  simp only [Nat.cast_ofNat]

lemma foldl_buffer_congr {α : Type} (f : Buffer → α → Buffer) (l : List α)
    (buf : Buffer) (px py : Int)
    (h : ∀ b a, a ∈ l → f b a px py = b px py) :
    l.foldl f buf px py = buf px py := by
  induction l generalizing buf with
  | nil => rfl
  | cons a l ih =>
    rw [List.foldl_cons]
    rw [ih (f buf a) (fun b a2 ha2 => h b a2 (List.mem_cons_of_mem _ ha2))]
    exact h buf a (List.mem_cons_self _ _)

lemma foldl_buffer_dep {α : Type} (f : Buffer → α → Buffer) (l : List α)
    (px py : Int)
    (hdep : ∀ a b b2, a ∈ l → b px py = b2 px py → f b a px py = f b2 a px py) :
    ∀ b b2 : Buffer, b px py = b2 px py →
      l.foldl f b px py = l.foldl f b2 px py := by
  induction l with
  | nil => intro b b2 h; exact h
  | cons a l ih =>
    intro b b2 h
    rw [List.foldl_cons, List.foldl_cons]
    exact ih (fun a2 b3 b4 ha2 => hdep a2 b3 b4 (List.mem_cons_of_mem _ ha2))
      _ _ (hdep a b b2 (List.mem_cons_self _ _) h)

lemma foldl_buffer_single {α : Type} (f : Buffer → α → Buffer) (l1 l2 : List α)
    (a0 : α) (buf : Buffer) (px py : Int)
    (h1 : ∀ b a, a ∈ l1 → f b a px py = b px py)
    (h2 : ∀ b a, a ∈ l2 → f b a px py = b px py)
    (hdep : ∀ b b2 : Buffer, b px py = b2 px py → f b a0 px py = f b2 a0 px py) :
    (l1 ++ a0 :: l2).foldl f buf px py = f buf a0 px py := by
  rw [List.foldl_append, List.foldl_cons]
  rw [foldl_buffer_congr f l2 _ px py h2]
  exact hdep _ _ (foldl_buffer_congr f l1 buf px py h1)

lemma range_split (n k : Nat) (h : k < n) :
    List.range n = List.range k ++ k :: List.map (fun j => k + (j + 1)) (List.range (n - k - 1)) := by
  have h1 : List.range n = List.range (k + (n - k)) := by congr 1; omega
  rw [h1, List.range_add]
  congr 1
  have h2 : n - k = (n - k - 1) + 1 := by omega
  rw [h2, List.range_succ_eq_map, List.map_cons, List.map_map]
  congr 1

lemma get_sprite_data_x (i : Nat) (s : MemState) :
    (get_sprite_data i s).x = 100 + (i : Int) * 20 := by
  unfold get_sprite_data
  split_ifs with h1 h2
  · rfl
  · rfl
  · exfalso
    apply h2
    simp only [VRAM_SIZE, MAX_SPRITES]
    omega

lemma get_sprite_data_y (i : Nat) (s : MemState) :
    (get_sprite_data i s).y = 100 := by
  unfold get_sprite_data
  split_ifs with h1 h2
  · rfl
  · rfl
  · rfl

lemma sprite_slot_no_touch (s : MemState) (i : Nat) (b : Buffer) (px py : Int)
    (h : py < 100) : sprite_slot_draw s b i px py = b px py := by
  unfold sprite_slot_draw
  split_ifs with hvis
  · rw [draw_sprite_apply]
    rw [if_neg]
    intro hc
    have hy := hc.2.2.2.2.2.2.1
    rw [get_sprite_data_y] at hy
    omega
  · rfl

lemma draw_sprites_pass_no_touch (s : MemState) (b : Buffer) (px py : Int)
    (h : py < 100) : draw_sprites_pass s b px py = b px py := by
  unfold draw_sprites_pass
  exact foldl_buffer_congr _ _ b px py (fun b2 i _ => sprite_slot_no_touch s i b2 px py h)

lemma tile_cell_no_touch (s : MemState) (ty tx : Nat) (b : Buffer) (px py : Int)
    (h : ¬((tx : Int) * 8 ≤ px ∧ px < (tx : Int) * 8 + 8 ∧
           (ty : Int) * 8 ≤ py ∧ py < (ty : Int) * 8 + 8)) :
    tile_cell_draw s ty tx b px py = b px py := by
  unfold tile_cell_draw
  split_ifs with hidx
  · rw [draw_character_apply]
    rw [if_neg]
    intro hc
    exact h ⟨hc.2.2.2.2.1, hc.2.2.2.2.2.1, hc.2.2.2.2.2.2.1, hc.2.2.2.2.2.2.2.1⟩
  · rfl

lemma tile_cell_dep (s : MemState) (ty tx : Nat) (b b2 : Buffer) (px py : Int)
    (h : b px py = b2 px py) :
    tile_cell_draw s ty tx b px py = tile_cell_draw s ty tx b2 px py := by
  unfold tile_cell_draw
  split_ifs with hidx
  · rw [draw_character_apply, draw_character_apply]
    split_ifs with hc
    · rfl
    · exact h
  · exact h

lemma tile_row_dep (s : MemState) (ty : Nat) (b b2 : Buffer) (px py : Int)
    (h : b px py = b2 px py) :
    tile_row_draw s b ty px py = tile_row_draw s b2 ty px py := by
  unfold tile_row_draw
  exact foldl_buffer_dep _ _ px py
    (fun tx b3 b4 _ h2 => tile_cell_dep s ty tx b3 b4 px py h2) b b2 h

lemma tile_row_no_touch (s : MemState) (ty : Nat) (b : Buffer) (px py : Int)
    (h : ¬((ty : Int) * 8 ≤ py ∧ py < (ty : Int) * 8 + 8)) :
    tile_row_draw s b ty px py = b px py := by
  unfold tile_row_draw
  apply foldl_buffer_congr
  intro b2 tx _
  apply tile_cell_no_touch
  intro hc
  exact h ⟨hc.2.2.1, hc.2.2.2⟩

lemma tile_row_draw_apply (s : MemState) (ty : Nat) (b : Buffer) (px py : Int)
    (tx0 : Nat) (htx0 : tx0 < 28)
    (hx1 : (tx0 : Int) * 8 ≤ px) (hx2 : px < (tx0 : Int) * 8 + 8) :
    tile_row_draw s b ty px py = tile_cell_draw s ty tx0 b px py := by
  unfold tile_row_draw
  have hTC : TILE_COLUMNS = 28 := rfl
  rw [hTC, range_split 28 tx0 htx0]
  apply foldl_buffer_single
  · intro b2 a ha
    have halt : a < tx0 := List.mem_range.mp ha
    apply tile_cell_no_touch
    intro hc
    have := hc.2.1
    omega
  · intro b2 a ha
    obtain ⟨j, _, hj⟩ := List.mem_map.mp ha
    apply tile_cell_no_touch
    intro hc
    have := hc.1
    omega
  · exact fun b2 b3 h2 => tile_cell_dep s ty tx0 b2 b3 px py h2

lemma draw_background_apply (s : MemState) (b : Buffer) (px py : Int)
    (tx0 ty0 : Nat) (htx0 : tx0 < 28) (hty0 : ty0 < 36)
    (hx1 : (tx0 : Int) * 8 ≤ px) (hx2 : px < (tx0 : Int) * 8 + 8)
    (hy1 : (ty0 : Int) * 8 ≤ py) (hy2 : py < (ty0 : Int) * 8 + 8) :
    draw_background s b px py = tile_cell_draw s ty0 tx0 b px py := by
  unfold draw_background
  have hTR : TILE_ROWS = 36 := rfl
  rw [hTR, range_split 36 ty0 hty0]
  have hstep : (List.range ty0 ++ ty0 :: List.map (fun j => ty0 + (j + 1))
      (List.range (36 - ty0 - 1))).foldl (tile_row_draw s) b px py =
      tile_row_draw s b ty0 px py := by
    apply foldl_buffer_single
    · intro b2 a ha
      have halt : a < ty0 := List.mem_range.mp ha
      apply tile_row_no_touch
      intro hc
      have := hc.1
      omega
    · intro b2 a ha
      obtain ⟨j, _, hj⟩ := List.mem_map.mp ha
      apply tile_row_no_touch
      intro hc
      have := hc.2
      omega
    · exact fun b2 b3 h2 => tile_row_dep s ty0 b2 b3 px py h2
  rw [hstep]
  exact tile_row_draw_apply s ty0 b px py tx0 htx0 hx1 hx2

lemma video_render_tile_pixel (s : MemState) (tx ty dx dy : Nat)
    (htx : tx < 28) (hty : ty < 36) (hdx : dx < 8) (hdy : dy < 8)
    (hy : 8 * ty + dy < 100) :
    video_render s ((tx : Int) * 8 + dx) ((ty : Int) * 8 + dy) =
      if ty * 32 + tx < 1024 ∧
         (s.charset ((s.vram (ty * 32 + tx) % 256) * 8 + dy) % 256) &&& (0x80 >>> dx) ≠ 0 then
        s.palette ((s.cram (ty * 32 + tx) % 256) &&& 0x0F)
      else 0 := by
  unfold video_render
  rw [draw_sprites_pass_no_touch s _ _ _ (by omega)]
  rw [draw_background_apply s clearBuffer _ _ tx ty htx hty
    (by omega) (by omega) (by omega) (by omega)]
  unfold tile_cell_draw
  have hVS : VRAM_SIZE = 1024 := rfl
  rw [hVS]
  have hdx2 : (((tx : Int) * 8 + (dx : Int)) - (tx : Int) * 8).toNat = dx := by omega
  have hdy2 : (((ty : Int) * 8 + (dy : Int)) - (ty : Int) * 8).toNat = dy := by omega
  by_cases hidx : ty * 32 + tx < 1024
  · rw [if_pos hidx, draw_character_apply, hdx2, hdy2]
    by_cases hbit :
        (s.charset ((s.vram (ty * 32 + tx) % 256) * 8 + dy) % 256) &&& (0x80 >>> dx) ≠ 0
    · rw [if_pos ⟨by omega, by omega, by omega,
        by omega, by omega, by omega,
        by omega, by omega, hbit⟩]
      rw [if_pos ⟨hidx, hbit⟩]
    · rw [if_neg (fun hc => hbit hc.2.2.2.2.2.2.2.2)]
      rw [if_neg (fun hc => hbit hc.2)]
      rfl
  · rw [if_neg hidx, if_neg (fun hc => hidx hc.1)]
    rfl

lemma updFn_same (f : Nat → Nat) (i v : Nat) : updFn f i v i = v := by
  simp [updFn]

lemma updFn_other (f : Nat → Nat) (i v j : Nat) (h : j ≠ i) : updFn f i v j = f j := by
  simp [updFn, h]

lemma lor_shiftLeft_eq_add (lo hi : Nat) (h : lo < 256) :
    lo ||| (hi <<< 8) = lo + 256 * hi := by
  apply Nat.eq_of_testBit_eq
  intro i
  rw [Nat.testBit_or, Nat.testBit_shiftLeft]
  rcases Nat.lt_or_ge i 8 with h8 | h8
  · have hnle : (decide (8 ≤ i)) = false := by simp; omega
    rw [hnle, Bool.false_and, Bool.or_false]
    have hmod : (lo + 256 * hi) % 2 ^ 8 = lo := by
      have h256 : (2:Nat) ^ 8 = 256 := by norm_num
      rw [h256, Nat.add_mul_mod_self_left, Nat.mod_eq_of_lt h]
    calc lo.testBit i = ((lo + 256 * hi) % 2 ^ 8).testBit i := by rw [hmod]
    _ = (decide (i < 8) && (lo + 256 * hi).testBit i) := Nat.testBit_mod_two_pow _ _ _
    _ = (lo + 256 * hi).testBit i := by simp [h8]
  · have hlo : lo.testBit i = false := by
      apply Nat.testBit_lt_two_pow
      calc lo < 256 := h
      _ = 2 ^ 8 := by norm_num
      _ ≤ 2 ^ i := Nat.pow_le_pow_right (by norm_num) h8
    have hle : (decide (8 ≤ i)) = true := by simp [h8]
    rw [hlo, hle, Bool.true_and, Bool.false_or]
    rw [Nat.testBit_to_div_mod, Nat.testBit_to_div_mod]
    have hdiv : (lo + 256 * hi) / 2 ^ i = hi / 2 ^ (i - 8) := by
      have hi8 : (2:Nat) ^ i = 2 ^ 8 * 2 ^ (i - 8) := by
        rw [← pow_add]; congr 1; omega
      rw [hi8, ← Nat.div_div_eq_div_mul]
      congr 1
      have h256 : lo + 256 * hi = lo + 2 ^ 8 * hi := by norm_num
      rw [h256, Nat.add_mul_div_left _ _ (by norm_num : (0:Nat) < 2 ^ 8)]
      have hz : lo / 2 ^ 8 = 0 := Nat.div_eq_of_lt (by norm_num; omega)
      omega
    rw [hdiv]

lemma memory_read_byte_lt (a : Nat) (s : MemState) : memory_read_byte a s < 256 := by
  simp only [memory_read_byte, io_read_byte]
  split_ifs <;> omega

lemma memory_read_word_eq_add (a : Nat) (s : MemState) :
    memory_read_word a s = memory_read_byte a s + 256 * memory_read_byte (a + 1) s := by
  unfold memory_read_word
  exact lor_shiftLeft_eq_add _ _ (memory_read_byte_lt a s)

lemma memory_write_byte_wram (a v : Nat) (s : MemState)
    (h1 : 0x4800 ≤ a) (h2 : a ≤ 0x4FFF) :
    memory_write_byte a v s = { s with ram := updFn s.ram (a - 0x4800) (v % 256) } := by
  have ha : a % 65536 = a := Nat.mod_eq_of_lt (by omega)
  have hrom : ¬ a ≤ 0x3FFF := by omega
  have hvr : ¬ (0x4000 ≤ a ∧ a ≤ 0x43FF) := by omega
  have hcr : ¬ (0x4400 ≤ a ∧ a ≤ 0x47FF) := by omega
  have hwr : 0x4800 ≤ a ∧ a ≤ 0x4FFF := ⟨h1, h2⟩
  simp only [memory_write_byte, ha, ROM_END, VRAM_START, VRAM_END, CRAM_START, CRAM_END,
    WRAM_START, WRAM_END, if_neg hrom, if_neg hvr, if_neg hcr, if_pos hwr]

lemma memory_read_byte_wram (a : Nat) (s : MemState)
    (h1 : 0x4800 ≤ a) (h2 : a ≤ 0x4FFF) :
    memory_read_byte a s = s.ram (a - 0x4800) % 256 := by
  have ha : a % 65536 = a := Nat.mod_eq_of_lt (by omega)
  have hrom : ¬ a ≤ 0x3FFF := by omega
  have hvr : ¬ (0x4000 ≤ a ∧ a ≤ 0x43FF) := by omega
  have hcr : ¬ (0x4400 ≤ a ∧ a ≤ 0x47FF) := by omega
  have hwr : 0x4800 ≤ a ∧ a ≤ 0x4FFF := ⟨h1, h2⟩
  simp only [memory_read_byte, ha, ROM_END, VRAM_START, VRAM_END, CRAM_START, CRAM_END,
    WRAM_START, WRAM_END, if_neg hrom, if_neg hvr, if_neg hcr, if_pos hwr]

lemma memory_write_byte_vram (a v : Nat) (s : MemState)
    (h1 : 0x4000 ≤ a) (h2 : a ≤ 0x43FF) :
    memory_write_byte a v s = { s with vram := updFn s.vram (a - 0x4000) (v % 256) } := by
  have ha : a % 65536 = a := Nat.mod_eq_of_lt (by omega)
  have hrom : ¬ a ≤ 0x3FFF := by omega
  have hvr : 0x4000 ≤ a ∧ a ≤ 0x43FF := ⟨h1, h2⟩
  simp only [memory_write_byte, ha, ROM_END, VRAM_START, VRAM_END, if_neg hrom, if_pos hvr]

lemma memory_write_byte_cram (a v : Nat) (s : MemState)
    (h1 : 0x4400 ≤ a) (h2 : a ≤ 0x47FF) :
    memory_write_byte a v s = { s with cram := updFn s.cram (a - 0x4400) (v % 256) } := by
  have ha : a % 65536 = a := Nat.mod_eq_of_lt (by omega)
  have hrom : ¬ a ≤ 0x3FFF := by omega
  have hvr : ¬ (0x4000 ≤ a ∧ a ≤ 0x43FF) := by omega
  have hcr : 0x4400 ≤ a ∧ a ≤ 0x47FF := ⟨h1, h2⟩
  simp only [memory_write_byte, ha, ROM_END, VRAM_START, VRAM_END, CRAM_START, CRAM_END,
    if_neg hrom, if_neg hvr, if_pos hcr]

lemma memory_write_byte_interrupt_en (v : Nat) (s : MemState) :
    memory_write_byte 0x5000 v s = { s with interrupt_enable := v % 256 &&& 0x01 } := by
  have ha : (0x5000 : Nat) % 65536 = 0x5000 := by norm_num
  simp only [memory_write_byte, ha, ROM_END, VRAM_START, VRAM_END, CRAM_START, CRAM_END,
    WRAM_START, WRAM_END, INTERRUPT_EN]
  norm_num

lemma memory_reset_vram (s : MemState) : (memory_reset s).vram = fun _ => 0 := rfl

lemma memory_reset_cram (s : MemState) : (memory_reset s).cram = fun _ => 0 := rfl

lemma memory_reset_charset (s : MemState) : (memory_reset s).charset = s.charset := rfl

lemma memory_reset_palette (s : MemState) : (memory_reset s).palette = s.palette := rfl

set_option maxRecDepth 10000 in
/-- Claim C1 (amended): the color resolved by video_update_palette obeys the
fixed-coefficient formula — red = bit0·33 + bit1·71 + bit2·151, green =
bit3·33 + bit4·71 + bit5·151, blue = bit6·71 + bit7·151, alpha 0xFF — and
writing a source byte updates exactly that palette entry with that color;
but the palette-PROM load path instead resolves each byte by scaling the
3-bit red and green levels by 36 and the 2-bit blue level by 85 (alpha 0xFF),
so the two conversion paths do not share the formula. -/
theorem claim_C1 :
    (∀ v : Nat, v < 256 →
       (palette_color v >>> 16) &&& 255 =
         ((v >>> 0) &&& 1) * 33 + ((v >>> 1) &&& 1) * 71 + ((v >>> 2) &&& 1) * 151 ∧
       (palette_color v >>> 8) &&& 255 =
         ((v >>> 3) &&& 1) * 33 + ((v >>> 4) &&& 1) * 71 + ((v >>> 5) &&& 1) * 151 ∧
       palette_color v &&& 255 = ((v >>> 6) &&& 1) * 71 + ((v >>> 7) &&& 1) * 151 ∧
       (palette_color v >>> 24) &&& 255 = 0xFF ∧
       (palette_prom_color v >>> 16) &&& 255 = (v &&& 7) * 36 ∧
       (palette_prom_color v >>> 8) &&& 255 = ((v >>> 3) &&& 7) * 36 ∧
       palette_prom_color v &&& 255 = ((v >>> 6) &&& 3) * 85 ∧
       (palette_prom_color v >>> 24) &&& 255 = 0xFF) ∧
    (∀ (i v : Nat) (s : MemState),
       (video_update_palette i v s).palette (i % 256) = palette_color (v % 256)) ∧
    (∀ (prom : Nat → Nat) (s : MemState) (idx : Nat), idx < 32 →
       (load_palette_prom prom s).palette idx = palette_prom_color (prom idx)) := by
  refine ⟨by decide, ?_, ?_⟩
  · intro i v s
    simp [video_update_palette, updFn]
  · intro prom s idx h
    simp [load_palette_prom, h]

/-- Witness for claim C1 at source byte 1, palette index 5, PROM entry 0. -/
theorem claim_C1_witness :
    (palette_color 1 >>> 16) &&& 255 =
      ((1 >>> 0) &&& 1) * 33 + ((1 >>> 1) &&& 1) * 71 + ((1 >>> 2) &&& 1) * 151 ∧
    (video_update_palette 5 1 zeroState).palette 5 = palette_color 1 ∧
    (load_palette_prom (fun _ => 1) zeroState).palette 0 = palette_prom_color 1 := by
  refine ⟨(claim_C1.1 1 (by decide)).1, ?_, claim_C1.2.2 (fun _ => 1) zeroState 0 (by decide)⟩
  have h := claim_C1.2.1 5 1 zeroState
  norm_num at h
  exact h

/-- Counterexample to claim C1 as stated: the palette-PROM load path resolves
source byte 1 to red channel 36, not the 33 demanded by the fixed-coefficient
formula, so the PROM path does not use the same formula. -/
theorem claim_C1_counterexample :
    (load_palette_prom (fun _ => 1) zeroState).palette 0 ≠ palette_color 1 ∧
    ((load_palette_prom (fun _ => 1) zeroState).palette 0 >>> 16) &&& 255 = 36 ∧
    (palette_color 1 >>> 16) &&& 255 = 33 := by
  refine ⟨by decide, by decide, by decide⟩

/-- Claim C2: get_sprite_data returns the fixed positions x = 100 + 20·slot
and y = 100 for every slot in every memory state — the sprite-coordinate I/O
sub-block entries (offsets 0x60+2i / 0x61+2i) are never consulted, contrary
to the claim. -/
theorem claim_C2 (s : MemState) (i : Nat) :
    (get_sprite_data i s).x = 100 + (i : Int) * 20 ∧ (get_sprite_data i s).y = 100 :=
  ⟨get_sprite_data_x i s, get_sprite_data_y i s⟩

/-- Claim C3 (amended): sprites are composited in ascending slot order with
plain overwrite, so where a later (higher-index) slot has a set pixel over an
earlier slot, the later slot's color wins; and with the fixed positions
returned by get_sprite_data, two distinct slots are never placed at
overlapping x ranges at all. -/
theorem claim_C3 :
    (∀ (x1 y1 : Int) (code1 c1 : Nat) (f1x f1y : Bool)
       (x2 y2 : Int) (code2 c2 : Nat) (f2x f2y : Bool)
       (spr pal : Nat → Nat) (buf : Buffer) (px py : Int),
       0 ≤ px → px < 224 → 0 ≤ py → py < 288 →
       x2 ≤ px → px < x2 + 16 → y2 ≤ py → py < y2 + 16 →
       spritePixelSet spr code2 f2x f2y (px - x2).toNat (py - y2).toNat = true →
       draw_sprite x2 y2 code2 c2 f2x f2y spr pal
         (draw_sprite x1 y1 code1 c1 f1x f1y spr pal buf) px py = pal (c2 &&& 0x0F)) ∧
    (∀ (s : MemState) (i j : Nat), i < j →
       (get_sprite_data i s).x + 16 ≤ (get_sprite_data j s).x) := by
  constructor
  · intro x1 y1 code1 c1 f1x f1y x2 y2 code2 c2 f2x f2y spr pal buf px py
      h1 h2 h3 h4 h5 h6 h7 h8 h9
    rw [draw_sprite_apply]
    rw [if_pos ⟨h1, h2, h3, h4, h5, h6, h7, h8, h9⟩]
  · intro s i j hij
    rw [get_sprite_data_x, get_sprite_data_x]
    omega

/-- Witness for claim C3: two sprite draws at the same position composited in
slot order 0 then 1 resolve to the later draw's palette entry, and slots 0
and 1 of any state sit 20 pixels apart. -/
theorem claim_C3_witness :
    draw_sprite 0 0 0 2 false false (fun _ => 0xFF) (fun n => n)
      (draw_sprite 0 0 0 1 false false (fun _ => 0xFF) (fun n => n) clearBuffer) 0 0 = 2 ∧
    (get_sprite_data 0 zeroState).x + 16 ≤ (get_sprite_data 1 zeroState).x := by
  constructor
  · have h := claim_C3.1 0 0 0 1 false false 0 0 0 2 false false
      (fun _ => 0xFF) (fun n => n) clearBuffer 0 0
      (by decide) (by decide) (by decide) (by decide) (by decide) (by decide)
      (by decide) (by decide) (by decide)
    rw [h]
    decide
  · exact claim_C3.2 zeroState 0 1 (by decide)

set_option maxRecDepth 100000 in
/-- Counterexample to claim C3 as stated: slots 0 (color 1) and 1 (color 2)
placed at identical coordinates with every sprite pixel set, drawn in the
ascending order video_render uses, leave the pixel of the HIGHER slot (color
2) on screen, not the lower slot's color 1. -/
theorem claim_C3_counterexample :
    draw_sprite 0 0 1 2 false false (fun _ => 0xFF) (fun n => n)
      (draw_sprite 0 0 0 1 false false (fun _ => 0xFF) (fun n => n) clearBuffer) 0 0 = 2 ∧
    spritePixelSet (fun _ => 0xFF) 0 false false 0 0 = true ∧
    spritePixelSet (fun _ => 0xFF) 1 false false 0 0 = true ∧
    (2 : Nat) ≠ 1 := by
  refine ⟨by decide, by decide, by decide, by decide⟩

/-- Claim C4: writes into the read-only program-store window (0x0000-0x3FFF)
return normally and leave the whole memory state unchanged; a subsequent read
returns the original ROM byte. -/
theorem claim_C4 (a v : Nat) (s : MemState) (h : a ≤ 0x3FFF) :
    memory_write_byte a v s = s ∧
    memory_read_byte a (memory_write_byte a v s) = memory_read_byte a s := by
  have hw : memory_write_byte a v s = s := by
    have ha : a % 65536 = a := Nat.mod_eq_of_lt (by omega)
    simp only [memory_write_byte, ha, ROM_END]
    rw [if_pos (by omega)]
  exact ⟨hw, by rw [hw]⟩

/-- Witness for claim C4 at address 0, value 7, the all-zero state. -/
theorem claim_C4_witness :
    memory_write_byte 0 7 zeroState = zeroState ∧
    memory_read_byte 0 (memory_write_byte 0 7 zeroState) = memory_read_byte 0 zeroState :=
  claim_C4 0 7 zeroState (by norm_num)

/-- Claim C5: reads of every unmapped address (0x5100-0xFFFF) return the
all-ones byte 0xFF in every memory state. -/
theorem claim_C5 (a : Nat) (s : MemState) (h1 : 0x5100 ≤ a) (h2 : a ≤ 0xFFFF) :
    memory_read_byte a s = 0xFF := by
  have ha : a % 65536 = a := Nat.mod_eq_of_lt (by omega)
  have hrom : ¬ a ≤ 0x3FFF := by omega
  have hvr : ¬ (0x4000 ≤ a ∧ a ≤ 0x43FF) := by omega
  have hcr : ¬ (0x4400 ≤ a ∧ a ≤ 0x47FF) := by omega
  have hwr : ¬ (0x4800 ≤ a ∧ a ≤ 0x4FFF) := by omega
  have hi0 : a ≠ 0x5000 := by omega
  have hi1 : a ≠ 0x5040 := by omega
  have hd1 : a ≠ 0x5080 := by omega
  have hd2 : a ≠ 0x50C0 := by omega
  have hio : ¬ (0x5000 ≤ a ∧ a ≤ 0x50FF) := by omega
  simp only [memory_read_byte, ha, ROM_END, VRAM_START, VRAM_END, CRAM_START, CRAM_END,
    WRAM_START, WRAM_END, IO_IN0, IO_IN1, IO_DSW1, IO_DSW2, if_neg hrom, if_neg hvr,
    if_neg hcr, if_neg hwr, if_neg hi0, if_neg hi1, if_neg hd1, if_neg hd2, if_neg hio]

/-- Witness for claim C5 at address 0x6000 in the all-zero state. -/
theorem claim_C5_witness : memory_read_byte 0x6000 zeroState = 0xFF :=
  claim_C5 0x6000 zeroState (by norm_num) (by norm_num)

/-- Claim C6: writing the interrupt-enable offset 0x5000 with 1 and then 0 is
observable through memory_get_interrupt_enable in that order, and in general
the getter returns the low bit of the last value written to that offset. -/
theorem claim_C6 (s : MemState) (v : Nat) :
    memory_get_interrupt_enable (memory_write_byte 0x5000 1 s) = 1 ∧
    memory_get_interrupt_enable
      (memory_write_byte 0x5000 0 (memory_write_byte 0x5000 1 s)) = 0 ∧
    memory_get_interrupt_enable (memory_write_byte 0x5000 v s) = v % 2 := by
  refine ⟨?_, ?_, ?_⟩
  · rw [memory_write_byte_interrupt_en]; rfl
  · rw [memory_write_byte_interrupt_en, memory_write_byte_interrupt_en]; rfl
  · rw [memory_write_byte_interrupt_en]
    show v % 256 &&& 1 = v % 2
    rw [Nat.and_one_is_mod]
    omega

/-- Claim C7: rendering reads the tile-index and attribute bytes at store
offset row·32 + col (32-column stride) and paints, for each visible cell,
exactly the set bits of the indexed glyph in the palette entry given by the
attribute's low 4 bits over the cleared (color-0) buffer; in particular,
after reset, writing tile-index 1 and attribute 5 at tile-store offset 0 and
rendering yields glyph 1's bit pattern at pixels (0,0)-(7,7) in palette entry
5 and color 0 elsewhere in that cell (sprites sit at y = 100 and never cover
it). -/
theorem claim_C7 :
    (∀ (s : MemState) (tx ty dx dy : Nat),
       tx < 28 → ty < 36 → dx < 8 → dy < 8 → 8 * ty + dy < 100 →
       video_render s ((tx : Int) * 8 + dx) ((ty : Int) * 8 + dy) =
         if ty * 32 + tx < 1024 ∧
            (s.charset ((s.vram (ty * 32 + tx) % 256) * 8 + dy) % 256) &&&
              (0x80 >>> dx) ≠ 0 then
           s.palette ((s.cram (ty * 32 + tx) % 256) &&& 0x0F)
         else 0) ∧
    (∀ (s0 : MemState) (x y : Nat), x < 8 → y < 8 →
       video_render (memory_write_byte 0x4400 5 (memory_write_byte 0x4000 1 (memory_reset s0)))
         ((x : Nat) : Int) ((y : Nat) : Int) =
         if (s0.charset (8 + y) % 256) &&& (0x80 >>> x) ≠ 0 then s0.palette 5 else 0) := by
  constructor
  · intro s tx ty dx dy h1 h2 h3 h4 h5
    exact video_render_tile_pixel s tx ty dx dy h1 h2 h3 h4 h5
  · intro s0 x y hx hy
    have hvr : (memory_write_byte 0x4400 5
        (memory_write_byte 0x4000 1 (memory_reset s0))).vram = updFn (fun _ => 0) 0 1 := by
      rw [memory_write_byte_cram 0x4400 5 _ (by norm_num) (by norm_num)]
      rw [memory_write_byte_vram 0x4000 1 _ (by norm_num) (by norm_num)]
      show updFn (memory_reset s0).vram (0x4000 - 0x4000) (1 % 256) = updFn (fun _ => 0) 0 1
      rw [memory_reset_vram]
    have hcr : (memory_write_byte 0x4400 5
        (memory_write_byte 0x4000 1 (memory_reset s0))).cram = updFn (fun _ => 0) 0 5 := by
      rw [memory_write_byte_cram 0x4400 5 _ (by norm_num) (by norm_num)]
      rw [memory_write_byte_vram 0x4000 1 _ (by norm_num) (by norm_num)]
      show updFn (memory_reset s0).cram (0x4400 - 0x4400) (5 % 256) = updFn (fun _ => 0) 0 5
      rw [memory_reset_cram]
    have hch : (memory_write_byte 0x4400 5
        (memory_write_byte 0x4000 1 (memory_reset s0))).charset = s0.charset := by
      rw [memory_write_byte_cram 0x4400 5 _ (by norm_num) (by norm_num)]
      rw [memory_write_byte_vram 0x4000 1 _ (by norm_num) (by norm_num)]
      exact memory_reset_charset s0
    have hpal : (memory_write_byte 0x4400 5
        (memory_write_byte 0x4000 1 (memory_reset s0))).palette = s0.palette := by
      rw [memory_write_byte_cram 0x4400 5 _ (by norm_num) (by norm_num)]
      rw [memory_write_byte_vram 0x4000 1 _ (by norm_num) (by norm_num)]
      exact memory_reset_palette s0
    have h := video_render_tile_pixel
      (memory_write_byte 0x4400 5 (memory_write_byte 0x4000 1 (memory_reset s0)))
      0 0 x y (by omega) (by omega) hx hy (by omega)
    rw [hvr, hcr, hch, hpal] at h
    norm_num [updFn_same] at h
    rw [h]
    have h515 : (5 : Nat) &&& 15 = 5 := by decide
    by_cases hb : s0.charset (8 + y) % 256 &&& 128 >>> x = 0
    · rw [if_pos hb, if_neg (fun hc => hc hb)]
    · rw [if_neg hb, if_pos hb, h515]

/-- Witness for claim C7: rendering the post-reset state with all-ones glyphs
and the palette n ↦ 100 + n puts palette entry 5 (value 105) at pixel (0,0). -/
theorem claim_C7_witness :
    video_render (memory_write_byte 0x4400 5 (memory_write_byte 0x4000 1 (memory_reset c7State)))
      ((0 : Nat) : Int) ((0 : Nat) : Int) = 105 := by
  have h := claim_C7.2 c7State 0 0 (by norm_num) (by norm_num)
  rw [h]
  decide

/-- Claim C8: in the register file each 16-bit pair and its two 8-bit halves
are views of one backing store: writing either half then reading the pair
yields high·256 + low, writing the pair then reading a half yields the
corresponding byte, and in every state the pair equals high·256 + low. -/
theorem claim_C8 (rg : Z80_Registers) (v w : Nat) :
    ((rg.set_a v).get_af = (v % 256) * 256 + rg.get_f ∧
     (rg.set_a v).get_f = rg.get_f ∧
     (rg.set_f v).get_af = rg.get_a * 256 + v % 256 ∧
     (rg.set_f v).get_a = rg.get_a ∧
     (rg.set_af w).get_a = w % 65536 / 256 ∧
     (rg.set_af w).get_f = w % 256 ∧
     rg.get_af = rg.get_a * 256 + rg.get_f) ∧
    ((rg.set_b v).get_bc = (v % 256) * 256 + rg.get_c ∧
     (rg.set_b v).get_c = rg.get_c ∧
     (rg.set_c v).get_bc = rg.get_b * 256 + v % 256 ∧
     (rg.set_c v).get_b = rg.get_b ∧
     (rg.set_bc w).get_b = w % 65536 / 256 ∧
     (rg.set_bc w).get_c = w % 256 ∧
     rg.get_bc = rg.get_b * 256 + rg.get_c) ∧
    ((rg.set_d v).get_de = (v % 256) * 256 + rg.get_e ∧
     (rg.set_d v).get_e = rg.get_e ∧
     (rg.set_e v).get_de = rg.get_d * 256 + v % 256 ∧
     (rg.set_e v).get_d = rg.get_d ∧
     (rg.set_de w).get_d = w % 65536 / 256 ∧
     (rg.set_de w).get_e = w % 256 ∧
     rg.get_de = rg.get_d * 256 + rg.get_e) ∧
    ((rg.set_h v).get_hl = (v % 256) * 256 + rg.get_l ∧
     (rg.set_h v).get_l = rg.get_l ∧
     (rg.set_l v).get_hl = rg.get_h * 256 + v % 256 ∧
     (rg.set_l v).get_h = rg.get_h ∧
     (rg.set_hl w).get_h = w % 65536 / 256 ∧
     (rg.set_hl w).get_l = w % 256 ∧
     rg.get_hl = rg.get_h * 256 + rg.get_l) := by
  refine ⟨⟨?_, ?_, ?_, ?_, ?_, ?_, ?_⟩, ⟨?_, ?_, ?_, ?_, ?_, ?_, ?_⟩,
    ⟨?_, ?_, ?_, ?_, ?_, ?_, ?_⟩, ⟨?_, ?_, ?_, ?_, ?_, ?_, ?_⟩⟩ <;>
    simp only [Z80_Registers.get_af, Z80_Registers.get_a, Z80_Registers.get_f,
      Z80_Registers.set_af, Z80_Registers.set_a, Z80_Registers.set_f,
      Z80_Registers.get_bc, Z80_Registers.get_b, Z80_Registers.get_c,
      Z80_Registers.set_bc, Z80_Registers.set_b, Z80_Registers.set_c,
      Z80_Registers.get_de, Z80_Registers.get_d, Z80_Registers.get_e,
      Z80_Registers.set_de, Z80_Registers.set_d, Z80_Registers.set_e,
      Z80_Registers.get_hl, Z80_Registers.get_h, Z80_Registers.get_l,
      Z80_Registers.set_hl, Z80_Registers.set_h, Z80_Registers.set_l] <;>
    omega

/-- Claim C9: after memory_reset the interrupt-enable state observable
through memory_get_interrupt_enable reads 1 (enabled), because memory_reset
sets interrupt_enable = 1 "for testing" — it does not read as disabled as the
claim requires. -/
theorem claim_C9 (s : MemState) : memory_get_interrupt_enable (memory_reset s) = 1 := rfl

/-- Claim C10: a word written into the work-RAM window reads back unchanged
(mod 2^16), and in every state a word read is the little-endian composition
of the two byte reads. -/
theorem claim_C10 (a v : Nat) (s : MemState) (h1 : 0x4800 ≤ a) (h2 : a + 1 ≤ 0x4FFF) :
    memory_read_word a (memory_write_word a v s) = v % 65536 ∧
    (∀ (b : Nat) (s2 : MemState),
       memory_read_word b s2 = memory_read_byte b s2 + 256 * memory_read_byte (b + 1) s2) := by
  constructor
  · rw [memory_read_word_eq_add]
    rw [show memory_write_word a v s = memory_write_byte (a + 1) ((v % 65536) >>> 8)
      (memory_write_byte a (v % 65536 &&& 0xFF) s) from rfl]
    rw [memory_write_byte_wram a _ s h1 (by omega)]
    rw [memory_write_byte_wram (a + 1) _ _ (by omega) (by omega)]
    rw [memory_read_byte_wram a _ h1 (by omega)]
    rw [memory_read_byte_wram (a + 1) _ (by omega) (by omega)]
    dsimp only
    rw [updFn_other _ _ _ _ (by omega), updFn_same, updFn_same]
    have hand : v % 65536 &&& 0xFF = v % 65536 % 256 := by
      have h255 : (0xFF : Nat) = 2 ^ 8 - 1 := by norm_num
      rw [h255, Nat.and_pow_two_sub_one_eq_mod]
    have hshift : (v % 65536) >>> 8 = v % 65536 / 256 := by
      norm_num [Nat.shiftRight_eq_div_pow]
    rw [hand, hshift]
    omega
  · intro b s2
    exact memory_read_word_eq_add b s2

/-- Witness for claim C10 at address 0x4800, value 0xBEEF, the all-zero state. -/
theorem claim_C10_witness :
    memory_read_word 0x4800 (memory_write_word 0x4800 0xBEEF zeroState) = 0xBEEF := by
  have h := (claim_C10 0x4800 0xBEEF zeroState (by norm_num) (by norm_num)).1
  rw [h]

end Pacman
